import Mathlib

/-!
# Verification of the cors-proxy request classifier

Shallow embedding of `src/cors-proxy/src/allow_request.rs` and the router of
`src/cors-proxy/src/main.rs`.

Modelling conventions:
* Rust `&str` / `String` become Lean `String`; byte-level operations
  (`ends_with`, `contains`) are modelled on the character list `String.data`,
  which agrees with the byte-level operation on the ASCII-only strings this
  program compares against.
* An `axum::http::HeaderValue` is observable in this program only through
  `to_str()` (which fails when the value holds a byte that is not visible
  ASCII) and through byte equality with an ASCII string literal.  It is
  therefore modelled as either a `valid` visible-ASCII string or `invalid`
  (a value containing a non-visible-ASCII byte, which can never be byte-equal
  to an ASCII literal and whose `to_str()` fails).
* `HeaderMap` lookup is case-insensitive in the header name; the map is
  modelled as an association list with case-insensitive lookup.
* Rust `Option::unwrap()` on `None` panics; a Rust function that may panic is
  embedded with result type `Option Bool`, where `none` means "panics".
* The result of the external `serde_qs::from_str` parser applied to the raw
  query string is carried in the request descriptor as
  `queryParse : Option (List (String × String))`, with `none` standing for a
  parse error (`Err`), exactly what `Url::new` consumes via
  `unwrap_or_default()`.
-/

namespace CorsProxy

/-- Lower-case an ASCII letter, as HTTP header-name normalisation does. -/
def charLower (c : Char) : Char :=
  if 65 ≤ c.toNat && c.toNat ≤ 90 then Char.ofNat (c.toNat + 32) else c

/-- Case-insensitive string comparison (header names). -/
def strCaseEq (a b : String) : Bool :=
  a.data.map charLower == b.data.map charLower

/-- `startsWithL l pre` : `pre` is a prefix of `l` (Rust `str::starts_with`
on reversed data gives `ends_with`). -/
def startsWithL : List Char → List Char → Bool
  | _, [] => true
  | [], _ :: _ => false
  | c :: cs, d :: ds => c == d && startsWithL cs ds

/-- Rust `str::ends_with(suffix)`. -/
def strEndsWith (s suffix : String) : Bool :=
  startsWithL s.data.reverse suffix.data.reverse

/-- `hasSubstr l sub` : `sub` occurs as a contiguous substring of `l`. -/
def hasSubstr : List Char → List Char → Bool
  | [], sub => sub.isEmpty
  | c :: rest, sub => startsWithL (c :: rest) sub || hasSubstr rest sub

/-- Rust `str::contains(sub)` (substring search). -/
def strContains (s sub : String) : Bool :=
  hasSubstr s.data sub.data

/-- An HTTP header value: either convertible to a (visible-ASCII) string, or
holding a byte that is not visible ASCII (`to_str()` fails on it). -/
inductive HeaderValue where
  | valid (s : String)
  | invalid
deriving DecidableEq

/-- `HeaderValue::to_str().ok()`. -/
def HeaderValue.toStr : HeaderValue → Option String
  | valid s => some s
  | invalid => none

/-- Byte equality of a `HeaderValue` with an ASCII string literal
(`PartialEq<str> for HeaderValue`): an `invalid` value holds a byte outside
visible ASCII, so it is never byte-equal to an ASCII literal. -/
def HeaderValue.eqStr : HeaderValue → String → Bool
  | valid s, t => s == t
  | invalid, _ => false

/-- The request descriptor: method, path, the outcome of the external
query-string parse (`none` = parse error), and the header map. -/
structure Request where
  method : String
  path : String
  queryParse : Option (List (String × String))
  headers : List (String × HeaderValue)
deriving DecidableEq

/-- `HeaderMap::get(name)`: case-insensitive lookup of the first matching
header. -/
def headersGet (hs : List (String × HeaderValue)) (name : String) :
    Option HeaderValue :=
  (hs.find? (fun p => strCaseEq p.1 name)).map (fun p => p.2)

def Request.headerGet (req : Request) (name : String) : Option HeaderValue :=
  headersGet req.headers name

/-- `HashMap::get` on the query-parameter map (association list model). -/
def qget (q : List (String × String)) (k : String) : Option String :=
  (q.find? (fun p => p.1 == k)).map (fun p => p.2)

/-- The `Url` struct of `allow_request.rs`. -/
structure Url where
  pathname : String
  query : List (String × String)

/-- `Url::new`: `from_str(query).unwrap_or_default()` — a failed parse
degrades to the empty map. -/
def Url.new (req : Request) : Url :=
  { pathname := req.path, query := req.queryParse.getD [] }

/-- `ChecksHeaders::header_matches`:
`headers().get(name).map(|h| h.to_str().ok()).flatten().map(pred).unwrap_or(false)`. -/
def header_matches (req : Request) (name : String) (pred : String → Bool) :
    Bool :=
  (((req.headerGet name).bind HeaderValue.toStr).map pred).getD false

/-- `ChecksHeaders::header_contains`. -/
def header_contains (req : Request) (name contains : String) : Bool :=
  header_matches req name (fun v => strContains v contains)

/-- `is_preflight_info_refs`. -/
def is_preflight_info_refs (req : Request) (u : Url) : Bool :=
  req.method == "OPTIONS"
    && strEndsWith u.pathname "/info/refs"
    && ((qget u.query "service").map
        (fun s => s == "git-upload-pack" || s == "git-receive-pack")).getD false

/-- `is_info_refs`. -/
def is_info_refs (req : Request) (u : Url) : Bool :=
  req.method == "GET"
    && strEndsWith u.pathname "/info/refs"
    && ((qget u.query "service").map
        (fun s => s == "git-upload-pack" || s == "git-receive-pack")).getD false

/-- `is_preflight_pull`.  The source calls `.unwrap()` on the header lookup:
when the method is OPTIONS and the `access-control-request-headers` header is
absent, the function panics (`none`). -/
def is_preflight_pull (req : Request) : Option Bool :=
  if req.method == "OPTIONS" then
    match req.headerGet "access-control-request-headers" with
    | none => none
    | some v => some (strContains (v.toStr.getD "") "content-type"
        && strEndsWith req.path "git-upload-pack")
  else some false

/-- `is_pull`.  The source calls `.unwrap()` on the header lookup: when the
method is POST and the `content-type` header is absent, the function panics
(`none`). -/
def is_pull (req : Request) : Option Bool :=
  if req.method == "POST" then
    match req.headerGet "content-type" with
    | none => none
    | some v => some (v.eqStr "application/x-git-upload-pack-request"
        && strEndsWith req.path "git-upload-pack")
  else some false

/-- `is_preflight_push` (uses the panic-free `header_contains`). -/
def is_preflight_push (req : Request) : Bool :=
  req.method == "OPTIONS"
    && header_contains req "access-control-request-headers" "content-type"
    && strEndsWith req.path "git-receive-pack"

/-- `is_push` (uses the panic-free `header_matches`). -/
def is_push (req : Request) : Bool :=
  req.method == "POST"
    && header_matches req "content-type"
        (fun s => s == "application/x-git-receive-pack-request")
    && strEndsWith req.path "git-receive-pack"

/-- Rust short-circuit `||` lifted to possibly-panicking operands: a panic in
an earlier operand propagates; a `true` earlier operand hides the rest. -/
def orSC : Option Bool → Option Bool → Option Bool
  | none, _ => none
  | some true, _ => some true
  | some false, b => b

/-- `allow`: the six rules combined with Rust's short-circuit `||`, in source
order. -/
def allow (req : Request) : Option Bool :=
  orSC (some (is_preflight_info_refs req (Url.new req)))
    (orSC (some (is_info_refs req (Url.new req)))
      (orSC (is_preflight_pull req)
        (orSC (is_pull req)
          (orSC (some (is_preflight_push req))
            (some (is_push req))))))

/-- Full (non-short-circuit) evaluation of all six rules followed by the OR
of their verdicts; it panics whenever any rule panics. -/
def allowFull (req : Request) : Option Bool :=
  match is_preflight_pull req, is_pull req with
  | some b₃, some b₄ =>
      some (is_preflight_info_refs req (Url.new req)
        || is_info_refs req (Url.new req)
        || b₃ || b₄
        || is_preflight_push req
        || is_push req)
  | _, _ => none

/-- The responses the router of `main.rs` can produce on its own. -/
inductive Response where
  | helloWorld
  | forbidden
  | methodNotAllowed
deriving DecidableEq

/-- The router of `main.rs`: `GET /` is served `"Hello, World!"`
(`process_request`), any other `GET` path matches `/*any` and is answered
`403 FORBIDDEN`; no non-GET route is registered.  The router never calls
`allow`. -/
def router (req : Request) : Response :=
  if req.method == "GET" then
    if req.path == "/" then Response.helloWorld else Response.forbidden
  else Response.methodNotAllowed

/-- Split a character list on a separator (used by the query-string model). -/
def splitOnChar (sep : Char) : List Char → List (List Char)
  | [] => [[]]
  | c :: rest =>
    match splitOnChar sep rest with
    | [] => [[c]]
    | g :: gs => if c == sep then [] :: g :: gs else (c :: g) :: gs

/-- Split one `key=value` piece at the first `=`. -/
def splitPair : List Char → List Char × List Char
  | [] => ([], [])
  | c :: rest =>
    if c == '=' then ([], rest)
    else ((splitPair rest).1.cons c, (splitPair rest).2)

/-- Modelled from the spec: the external `serde_qs::from_str` query-string
parser (crate code, not under `src/`) as far as this program observes it —
the raw query splits on `&` into `key=value` pieces; a key using the
nested/array bracket syntax is an unsupported structure and makes the whole
parse fail (`none`); otherwise the flat key/value pairs are returned in
order. -/
def parsePairs (raw : String) : Option (List (String × String)) :=
  if raw.data.isEmpty then some []
  else (splitOnChar '&' raw.data).mapM (fun piece =>
    if (splitPair piece).1.contains '[' || (splitPair piece).1.contains ']'
    then none
    else some (String.mk (splitPair piece).1, String.mk (splitPair piece).2))

/-- `HashMap::insert` on the association-list model: replaces the binding of
an existing key, otherwise appends. -/
def mapInsert (m : List (String × String)) (kv : String × String) :
    List (String × String) :=
  match m with
  | [] => [kv]
  | p :: rest => if p.1 == kv.1 then kv :: rest else p :: mapInsert rest kv

/-- Build the query map by inserting the parsed pairs left to right, as map
deserialisation does. -/
def buildMap (ps : List (String × String)) : List (String × String) :=
  ps.foldl mapInsert []

/-- Modelled from the spec: the whole query-string parse — pairs, then map
("Duplicate parameter names: last occurrence wins (map semantics)"). -/
def parseQuery (raw : String) : Option (List (String × String)) :=
  (parsePairs raw).map buildMap

/-- The value of the last pair carrying key `k`, if any: the spec's
"last occurrence wins". -/
def lastVal (ps : List (String × String)) (k : String) : Option String :=
  ps.foldl (fun acc p => if p.1 == k then some p.2 else acc) none

/-! ## Helper lemmas -/

theorem qget_mapInsert (m : List (String × String)) (kv : String × String)
    (k : String) :
    qget (mapInsert m kv) k = if kv.1 == k then some kv.2 else qget m k := by
  induction m with
  | nil => by_cases h : kv.1 == k <;> simp [mapInsert, qget, List.find?, h]
  | cons p rest ih =>
    by_cases h1 : p.1 == kv.1
    · have h1' : p.1 = kv.1 := by simpa using h1
      by_cases h2 : kv.1 == k <;>
        simp [mapInsert, qget, List.find?, h1, h1', h2]
    · by_cases h2 : p.1 == k
      · have h2' : p.1 = k := by simpa using h2
        have h3 : ¬ kv.1 == k := by
          intro hc
          exact h1 (by simp_all)
        have h1' : (k == kv.1) = false := by
          rw [← h2']
          simpa using h1
        simp [mapInsert, qget, List.find?, h1, h2, h2', h3, h1']
      · simp only [mapInsert, h1, if_neg, qget, List.find?, h2]
        simpa [qget] using ih

theorem qget_foldl_mapInsert (ps : List (String × String))
    (m : List (String × String)) (o : Option String) (k : String)
    (ho : qget m k = o) :
    qget (ps.foldl mapInsert m) k =
      ps.foldl (fun acc p => if p.1 == k then some p.2 else acc) o := by
  induction ps generalizing m o with
  | nil => simpa using ho
  | cons p ps ih =>
    simp only [List.foldl_cons]
    exact ih (mapInsert m p) _ (by rw [qget_mapInsert, ho])

theorem startsWithL_cons (l : List Char) (c : Char) (cs : List Char)
    (h : startsWithL l (c :: cs) = true) :
    ∃ l', l = c :: l' ∧ startsWithL l' cs = true := by
  cases l with
  | nil => simp [startsWithL] at h
  | cons d ds =>
    simp only [startsWithL, Bool.and_eq_true, beq_iff_eq] at h
    exact ⟨ds, by rw [h.1], h.2⟩

theorem endsWith_receive_not_info (s : String)
    (h : strEndsWith s "git-receive-pack" = true) :
    strEndsWith s "/info/refs" = false := by
  have hrev1 : ("git-receive-pack".data.reverse) =
      'k' :: 'c' :: 'a' :: 'p' :: '-' :: 'e' :: 'v' :: 'i' :: 'e' :: 'c'
        :: 'e' :: 'r' :: '-' :: 't' :: 'i' :: 'g' :: [] := by decide
  have hrev2 : ("/info/refs".data.reverse) =
      's' :: 'f' :: 'e' :: 'r' :: '/' :: 'o' :: 'f' :: 'n' :: 'i' :: '/'
        :: [] := by decide
  rw [strEndsWith, hrev1] at h
  obtain ⟨l', hl', _⟩ := startsWithL_cons _ _ _ h
  rw [strEndsWith, hrev2, hl']
  simp only [startsWithL]
  simp [show ('k' == 's') = false from by decide]

/-! ## Claim theorems -/

/-- Claim C1: the claim states that `allow` terminates normally with a
boolean for every request, in particular when `access-control-request-headers`
is absent.  The code refutes it: `is_preflight_pull` calls `.unwrap()` on the
header lookup, so an OPTIONS request carrying no
`access-control-request-headers` header makes `allow` panic (`none`). -/
theorem C1_allow_panics_on_missing_acr_headers :
    allow { method := "OPTIONS", path := "/", queryParse := some [],
            headers := [] } = none := by decide

/-- Claim C2: the claim states that a POST to a path ending in
`git-upload-pack` with no `content-type` header is classified `false`.  The
code refutes it: `is_pull` calls `.unwrap()` on the `content-type` lookup, so
such a request makes `allow` panic (`none`) instead of returning `false`. -/
theorem C2_pull_missing_content_type_panics :
    allow { method := "POST", path := "/repo/git-upload-pack",
            queryParse := some [], headers := [] } = none := by decide

/-- Claim C3: an OPTIONS request whose path ends with `/info/refs` and whose
`service` query parameter is `git-upload-pack` or `git-receive-pack` is
classified `true` by `allow`, whatever the headers are. -/
theorem C3_preflight_info_refs_allows (req : Request)
    (hm : req.method = "OPTIONS")
    (hp : strEndsWith req.path "/info/refs" = true)
    (hs : qget (req.queryParse.getD []) "service" = some "git-upload-pack" ∨
      qget (req.queryParse.getD []) "service" = some "git-receive-pack") :
    allow req = some true := by
  have h1 : is_preflight_info_refs req (Url.new req) = true := by
    rcases hs with hs | hs <;> simp [is_preflight_info_refs, Url.new, hm, hp, hs]
  simp [allow, h1, orSC]

/-- Witness for C3 at a concrete request carrying an unrelated header. -/
theorem C3_preflight_info_refs_allows_witness :
    allow { method := "OPTIONS", path := "/test/info/refs",
            queryParse := some [("service", "git-upload-pack")],
            headers := [("x-whatever", HeaderValue.invalid)] } = some true :=
  C3_preflight_info_refs_allows _ rfl (by decide) (Or.inl (by decide))

/-- Claim C4: when the raw query string fails to parse (`queryParse = none`),
`Url::new` yields the empty query map and both Info-Refs rules evaluate to
`false`; no error is raised (the embedding is total). -/
theorem C4_unparseable_query_degrades (req : Request)
    (h : req.queryParse = none) :
    (Url.new req).query = [] ∧
    is_preflight_info_refs req (Url.new req) = false ∧
    is_info_refs req (Url.new req) = false := by
  simp [Url.new, h, is_preflight_info_refs, is_info_refs, qget]

/-- Witness for C4: the spec's example `?service[]=x&service[]=y` is rejected
by the (spec-modelled) parser, and the Info-Refs rules evaluate to false. -/
theorem C4_unparseable_query_degrades_witness :
    (Url.new { method := "OPTIONS", path := "/t/info/refs",
               queryParse := parseQuery "service[]=x&service[]=y",
               headers := [] }).query = [] ∧
    is_preflight_info_refs
      { method := "OPTIONS", path := "/t/info/refs",
        queryParse := parseQuery "service[]=x&service[]=y", headers := [] }
      (Url.new { method := "OPTIONS", path := "/t/info/refs",
                 queryParse := parseQuery "service[]=x&service[]=y",
                 headers := [] }) = false ∧
    is_info_refs
      { method := "OPTIONS", path := "/t/info/refs",
        queryParse := parseQuery "service[]=x&service[]=y", headers := [] }
      (Url.new { method := "OPTIONS", path := "/t/info/refs",
                 queryParse := parseQuery "service[]=x&service[]=y",
                 headers := [] }) = false :=
  C4_unparseable_query_degrades _ (by decide)

/-- Counterexample to claim C5 as stated: on an OPTIONS `/x/info/refs`
request with a valid `service` parameter and no headers, short-circuit
evaluation returns the verdict `true` while full evaluation of all six rules
panics (`is_preflight_pull` unwraps the absent
`access-control-request-headers`), so the two strategies are observably
different. -/
theorem C5_short_circuit_vs_full_counterexample :
    allow { method := "OPTIONS", path := "/x/info/refs",
            queryParse := some [("service", "git-upload-pack")],
            headers := [] } = some true ∧
    allowFull { method := "OPTIONS", path := "/x/info/refs",
                queryParse := some [("service", "git-upload-pack")],
                headers := [] } = none := by decide

/-- Claim C5 (amended): on every request on which the two header-unwrapping
rules (`is_preflight_pull`, `is_pull`) evaluate without panicking,
short-circuit evaluation and full OR evaluation of the six rules produce the
same verdict. -/
theorem C5_short_circuit_equiv_when_no_panic (req : Request) (b₃ b₄ : Bool)
    (h₃ : is_preflight_pull req = some b₃)
    (h₄ : is_pull req = some b₄) :
    allow req = allowFull req := by
  cases h1 : is_preflight_info_refs req (Url.new req) <;>
  cases h2 : is_info_refs req (Url.new req) <;>
  cases b₃ <;> cases b₄ <;>
  cases h5 : is_preflight_push req <;>
  cases h6 : is_push req <;>
    simp [allow, allowFull, h1, h2, h₃, h₄, h5, h6, orSC]

/-- Witness for the amended C5 at a concrete GET request (both panicking
rules short-circuit on the method, hence evaluate to `some false`). -/
theorem C5_short_circuit_equiv_when_no_panic_witness :
    allow { method := "GET", path := "/x/info/refs",
            queryParse := some [("service", "git-upload-pack")],
            headers := [] } =
    allowFull { method := "GET", path := "/x/info/refs",
                queryParse := some [("service", "git-upload-pack")],
                headers := [] } :=
  C5_short_circuit_equiv_when_no_panic _ false false (by decide) (by decide)

/-- Claim C6: a request with `content-type` exactly
`application/x-git-receive-pack-request` and a path ending in
`git-receive-pack` is classified `true` when its method is POST and `false`
when its method is GET. -/
theorem C6_receive_pack_post_true_get_false (req : Request)
    (hct : req.headerGet "content-type" =
      some (HeaderValue.valid "application/x-git-receive-pack-request"))
    (hp : strEndsWith req.path "git-receive-pack" = true) :
    (req.method = "POST" → allow req = some true) ∧
    (req.method = "GET" → allow req = some false) := by
  constructor
  · intro hm
    have hne : ("application/x-git-receive-pack-request" ==
        "application/x-git-upload-pack-request") = false := by decide
    have hpush : is_push req = true := by
      simp [is_push, hm, header_matches, hct, HeaderValue.toStr, hp]
    have hpull : is_pull req = some false := by
      simp [is_pull, hm, hct, HeaderValue.eqStr, hne]
    simp [allow, orSC, is_preflight_info_refs, is_info_refs,
      is_preflight_pull, is_preflight_push, hm, hpull, hpush]
  · intro hm
    have hinfo : strEndsWith req.path "/info/refs" = false :=
      endsWith_receive_not_info req.path hp
    simp [allow, orSC, is_preflight_info_refs, is_info_refs,
      is_preflight_pull, is_pull, is_preflight_push, is_push,
      Url.new, hm, hinfo]

/-- Witness for C6 at the spec's `/anything/git-receive-pack` example, both
for POST (admitted) and for GET (denied). -/
theorem C6_receive_pack_post_true_get_false_witness :
    allow { method := "POST", path := "/anything/git-receive-pack",
            queryParse := none,
            headers := [("content-type", HeaderValue.valid
              "application/x-git-receive-pack-request")] } = some true ∧
    allow { method := "GET", path := "/anything/git-receive-pack",
            queryParse := none,
            headers := [("content-type", HeaderValue.valid
              "application/x-git-receive-pack-request")] } = some false :=
  ⟨(C6_receive_pack_post_true_get_false _ (by decide) (by decide)).1 rfl,
   (C6_receive_pack_post_true_get_false _ (by decide) (by decide)).2 rfl⟩

/-- Claim C7: the router's response to a GET request is a fixed function of
the path alone — `helloWorld` on `/`, `forbidden` elsewhere — so two GET
requests with the same path get the same response whatever `allow` says
about them; the router never consults the classifier. -/
theorem C7_router_ignores_classifier (r₁ r₂ : Request)
    (h₁ : r₁.method = "GET") (h₂ : r₂.method = "GET")
    (hp : r₁.path = r₂.path) :
    router r₁ = router r₂ ∧
    router r₁ =
      (if r₁.path == "/" then Response.helloWorld else Response.forbidden) := by
  simp [router, h₁, h₂, hp]

/-- Witness for C7: two GET requests on the same path on which `allow`
returns different verdicts still receive the same (fixed `403`) response. -/
theorem C7_router_ignores_classifier_witness :
    allow { method := "GET", path := "/x/info/refs",
            queryParse := some [("service", "git-upload-pack")],
            headers := [] } = some true ∧
    allow { method := "GET", path := "/x/info/refs", queryParse := some [],
            headers := [] } = some false ∧
    router { method := "GET", path := "/x/info/refs",
             queryParse := some [("service", "git-upload-pack")],
             headers := [] } =
      router { method := "GET", path := "/x/info/refs",
               queryParse := some [], headers := [] } ∧
    router { method := "GET", path := "/x/info/refs",
             queryParse := some [("service", "git-upload-pack")],
             headers := [] } = Response.forbidden :=
  ⟨by decide, by decide,
   (C7_router_ignores_classifier _ _ rfl rfl rfl).1, by decide⟩

/-- Claim C8: for every raw query string the (spec-modelled) parser accepts,
the query map binds each name to the value of its last occurrence in the raw
string. -/
theorem C8_last_occurrence_wins (raw : String)
    (pairs m : List (String × String)) (k : String)
    (hp : parsePairs raw = some pairs)
    (hq : parseQuery raw = some m) :
    qget m k = lastVal pairs k := by
  have hm : m = buildMap pairs := by
    simp [parseQuery, hp] at hq
    exact hq.symm
  subst hm
  exact qget_foldl_mapInsert pairs [] none k rfl

/-- Witness for C8: in `a=1&a=2` the second occurrence of `a` wins. -/
theorem C8_last_occurrence_wins_witness :
    qget (buildMap [("a", "1"), ("a", "2")]) "a" =
      lastVal [("a", "1"), ("a", "2")] "a" ∧
    qget (buildMap [("a", "1"), ("a", "2")]) "a" = some "2" :=
  ⟨C8_last_occurrence_wins "a=1&a=2" _ _ "a" (by decide) (by decide),
   by decide⟩

/-- Claim C9: an OPTIONS request whose path ends in `git-upload-pack` and
whose `access-control-request-headers` header (looked up case-insensitively)
has a string value containing the substring `content-type` is classified
`true`. -/
theorem C9_preflight_pull_allows (req : Request) (v : String)
    (hm : req.method = "OPTIONS")
    (hp : strEndsWith req.path "git-upload-pack" = true)
    (hh : req.headerGet "access-control-request-headers" =
      some (HeaderValue.valid v))
    (hv : strContains v "content-type" = true) :
    allow req = some true := by
  have h3 : is_preflight_pull req = some true := by
    simp [is_preflight_pull, hm, hh, HeaderValue.toStr, hv, hp]
  cases h1 : is_preflight_info_refs req (Url.new req) <;>
    simp [allow, h1, orSC, is_info_refs, hm, h3]

/-- Witness for C9 at the spec's example, with a mixed-case header name and
the value `content-type, authorization`. -/
theorem C9_preflight_pull_allows_witness :
    allow { method := "OPTIONS", path := "/repo/git-upload-pack",
            queryParse := none,
            headers := [("Access-Control-Request-Headers",
              HeaderValue.valid "content-type, authorization")] } =
      some true :=
  C9_preflight_pull_allows _ "content-type, authorization" rfl (by decide)
    (by decide) (by decide)

/-- Claim C10: a header that is present but whose value cannot be converted
to a string behaves, for `header_matches` and `header_contains`, exactly
like an absent header: both return `false` and no error is raised. -/
theorem C10_invalid_header_value_false (req : Request) (name : String)
    (pred : String → Bool) (sub : String)
    (h : req.headerGet name = some HeaderValue.invalid ∨
      req.headerGet name = none) :
    header_matches req name pred = false ∧
    header_contains req name sub = false := by
  rcases h with h | h <;>
    simp [header_contains, header_matches, h, HeaderValue.toStr]

/-- Witness for C10 at a request carrying a non-ASCII-valued header. -/
theorem C10_invalid_header_value_false_witness :
    header_matches { method := "GET", path := "/", queryParse := none,
                     headers := [("x-bin", HeaderValue.invalid)] }
      "x-bin" (fun _ => true) = false ∧
    header_contains { method := "GET", path := "/", queryParse := none,
                      headers := [("x-bin", HeaderValue.invalid)] }
      "x-bin" "content-type" = false :=
  C10_invalid_header_value_false _ "x-bin" (fun _ => true) "content-type"
    (Or.inl (by decide))

end CorsProxy
